import Mathlib

/-!
# Verification of `Image-Verification.py`

A shallow embedding of the pipeline in
`Image-Verification-Automation-System/Image-Verification.py`, together with
theorems settling the specification claims about it.

The program is a straight-line script: `preprocess_image` loads and binarizes
an image via the vision library, `extract_text_from_image` runs the OCR
engine, `validate_text` runs four textual checks over the extracted string,
and `main` sequences the three, printing results and catching any raised
error at its single boundary.

External libraries are not part of the repository and enter the embedding as
parameters: the vision library's decoder (`imread`) as a
`String → Option Image` function, its grayscale/threshold transform as an
`Image → Image` function, the OCR engine as a fallible
`Image → Except PyError String` function, and the spell checker's dictionary
as an injectable predicate `known : String → Bool` (the spec's
`isKnownWord(token) -> boolean`). Text processing (`re.findall`, `re.split`,
`str.split`, `str.strip`, `re.search`) is embedded directly below, on
`List Char`.
-/

namespace ImageVerification

/-- Whitespace characters, as matched by Python's `\s` in `str` regular
expressions and stripped by `str.strip()`: the ASCII whitespace characters
together with the Unicode whitespace code points. -/
def isPySpace (c : Char) : Bool :=
  ([9, 10, 11, 12, 13, 28, 29, 30, 31, 32, 133, 160, 5760,
    8192, 8193, 8194, 8195, 8196, 8197, 8198, 8199, 8200, 8201, 8202,
    8232, 8233, 8239, 8287, 12288] : List Nat).contains c.toNat

/-- Word characters for the token pattern `\b\w+\b` of the spelling check:
alphanumerics and the underscore. (Python's `\w` additionally matches
non-ASCII word characters; the OCR stage is configured for `eng` and every
claim exercises the ASCII range.) -/
def isWordChar (c : Char) : Bool :=
  c.isAlphanum || c = '_'

/-- The sentence-boundary lookbehind class `[.!?]` of
`re.split(r'(?<=[.!?])\s+', ...)`. -/
def isSentEnd (c : Char) : Bool :=
  c = '.' || c = '!' || c = '?'

/-- `re.findall(r'\b\w+\b', text)`: the maximal runs of word characters, in
order of occurrence. -/
def chunkWord : List Char → List (List Char)
  | [] => []
  | [c] => if isWordChar c then [[c]] else []
  | c :: c2 :: cs =>
    if isWordChar c then
      if isWordChar c2 then
        match chunkWord (c2 :: cs) with
        | t :: ts => (c :: t) :: ts
        | [] => [[c]]
      else [c] :: chunkWord (c2 :: cs)
    else chunkWord (c2 :: cs)

/-- `text.split('\n')`: split at every newline character, keeping empty
pieces; the empty string yields a single empty piece. -/
def splitOnNl : List Char → List (List Char)
  | [] => [[]]
  | c :: cs =>
    if c = '\n' then [] :: splitOnNl cs
    else
      match splitOnNl cs with
      | l :: ls => (c :: l) :: ls
      | [] => [[c]]

/-- `text.strip()`: remove leading and trailing whitespace. -/
def pyStrip (l : List Char) : List Char :=
  ((l.dropWhile isPySpace).reverse.dropWhile isPySpace).reverse

/-- Worker for `re.split(r'(?<=[.!?])\s+', text)`. The first argument is
true while inside a separator run (a maximal whitespace run whose first
character immediately follows one of `.`, `!`, `?`); the second is the
previously scanned character. The head of the result is the continuation of
the segment currently being read. -/
def sentAux : Bool → Char → List Char → List (List Char)
  | _, _, [] => [[]]
  | true, _, c :: cs =>
    if isPySpace c then sentAux true c cs
    else
      match sentAux false c cs with
      | s :: ss => (c :: s) :: ss
      | [] => [[c]]
  | false, prev, c :: cs =>
    if isPySpace c && isSentEnd prev then
      [] :: sentAux true c cs
    else
      match sentAux false c cs with
      | s :: ss => (c :: s) :: ss
      | [] => [[c]]

/-- `re.split(r'(?<=[.!?])\s+', text)`: split into sentence-like segments at
each maximal whitespace run immediately preceded by `.`, `!` or `?`. The
initial previous-character `'A'` is inert: at position 0 the lookbehind
cannot match. -/
def splitSentences (l : List Char) : List (List Char) :=
  sentAux false 'A' l

/-- `sentence.endswith('.')`; false for the empty segment. -/
def endsWithDot (l : List Char) : Bool :=
  l.getLast? = some '.'

/-- `re.search(r' {2,}', text) is not None`: some character is a space and
is immediately followed by a space. -/
def hasDoubleSpace : List Char → Bool
  | [] => false
  | [_] => false
  | c1 :: c2 :: cs => (c1 = ' ' && c2 = ' ') || hasDoubleSpace (c2 :: cs)

/-- The aggregate spelling error message
`f"오타 발견: {', '.join(misspelled)}"`. -/
def spellMsg (misspelled : List String) : String :=
  "오타 발견: " ++ String.intercalate ", " misspelled

/-- The line-count error message. -/
def lineMsg : String :=
  "문단이 너무 짧거나 줄 간격에 문제가 있을 수 있습니다."

/-- The per-segment punctuation error message
`f"문장부호 누락: '{sentence}' (문장이 온점(.)으로 끝나야 합니다.)"`. -/
def punctMsg (sentence : String) : String :=
  "문장부호 누락: '" ++ sentence ++ "' (문장이 온점(.)으로 끝나야 합니다.)"

/-- The extraneous-whitespace error message. -/
def wsMsg : String :=
  "불필요한 여백(연속된 공백)이 있습니다."

/-- The word-like tokens of the input, as strings. -/
def wordTokens (text : String) : List String :=
  (chunkWord text.data).map String.mk

/-- `spell.unknown(words)`, with the spell checker's dictionary abstracted
as the injectable predicate `known`: the tokens the dictionary does not
know, as a set (duplicates removed; first occurrences kept as the set's
enumeration order, which Python leaves unspecified). -/
def misspelledOf (known : String → Bool) (text : String) : List String :=
  ((wordTokens text).filter (fun w => !known w)).eraseDups

/-- The lines of the input that remain non-empty after `line.strip()`. -/
def nonBlankLines (text : String) : List (List Char) :=
  (splitOnNl text.data).filter (fun l => l.any (fun c => !isPySpace c))

/-- `len(non_empty_lines)`, the report's `lines_count`. -/
def nonBlankLineCount (text : String) : Nat :=
  (nonBlankLines text).length

/-- `sentences = re.split(r'(?<=[.!?])\s+', text.strip())`. -/
def sentencesOf (text : String) : List (List Char) :=
  splitSentences (pyStrip text.data)

/-- The punctuation errors: one message per segment before the last that
does not end with `'.'`, in order. -/
def punctErrors (sents : List (List Char)) : List String :=
  (sents.dropLast.filter (fun s => !endsWithDot s)).map
    (fun s => punctMsg (String.mk s))

/-- The `errors` list accumulated by `validate_text`, in program order:
spelling, line count, punctuation, whitespace. -/
def errorsOf (known : String → Bool) (text : String) : List String :=
  (if (misspelledOf known text).isEmpty then []
    else [spellMsg (misspelledOf known text)])
  ++ (if nonBlankLineCount text < 3 then [lineMsg] else [])
  ++ punctErrors (sentencesOf text)
  ++ (if hasDoubleSpace text.data then [wsMsg] else [])

/-- The `validation_result` dictionary returned by `validate_text`. -/
structure ValidationReport where
  misspelled_words : List String
  lines_count : Nat
  errors : List String
  is_valid : Bool
deriving Repr, DecidableEq

/-- `validate_text(text)`, with the dictionary injected: runs the four
checks and returns the report; `is_valid` is `len(errors) == 0`. -/
def validate_text (known : String → Bool) (text : String) : ValidationReport :=
  { misspelled_words := misspelledOf known text
    lines_count := nonBlankLineCount text
    errors := errorsOf known text
    is_valid := (errorsOf known text).length == 0 }

/-- The error kinds that can cross a stage boundary: the `FileNotFoundError`
raised by `preprocess_image` (the spec's `NotFoundError`) and the OCR
engine's own failure (the spec's `EngineError`). -/
inductive PyError where
  | fileNotFound (msg : String)
  | engineError (msg : String)
deriving Repr, DecidableEq

/-- `str(e)` for a caught error. -/
def errMessage : PyError → String
  | .fileNotFound m => m
  | .engineError m => m

/-- `preprocess_image(image_path)`: decode via the vision library; if no
image data results, fail with `FileNotFoundError` carrying the path;
otherwise apply the grayscale/adaptive-threshold transform. -/
def preprocess_image {Image : Type} (imread : String → Option Image)
    (cvtAndThreshold : Image → Image) (image_path : String) :
    Except PyError Image :=
  match imread image_path with
  | none =>
    Except.error (PyError.fileNotFound ("이미지를 찾을 수 없습니다: " ++ image_path))
  | some image => Except.ok (cvtAndThreshold image)

/-- `extract_text_from_image(image)`: invoke the OCR engine. -/
def extract_text_from_image {Image : Type}
    (ocr : Image → Except PyError String) (image : Image) :
    Except PyError String :=
  ocr image

/-- Python's `repr` of a list of (quote-free) strings, as printed by
`print(f"오타 단어: {result['misspelled_words']}")`. -/
def pyStrListRepr (xs : List String) : String :=
  "[" ++ String.intercalate ", " (xs.map (fun s => "'" ++ s ++ "'")) ++ "]"

/-- The lines printed for a validation report in `main`'s success path. -/
def reportLines (result : ValidationReport) : List String :=
  ["\n----- 검증 결과 -----",
   "오타 단어: " ++ pyStrListRepr result.misspelled_words,
   "유효한 줄 수: " ++ toString result.lines_count,
   "발견된 오류:"]
  ++ (if result.errors.isEmpty then ["모든 검증 항목을 통과했습니다."]
      else result.errors.map (fun err => "- " ++ err))

/-- `main(image_path)`: run the three stages in order and print the results;
any error raised by a stage is caught at this single boundary and converted
to the one diagnostic line `f"에러 발생: {e}"`. The function is total and
returns the printed lines: every run terminates normally, never propagating
the raw exception. -/
def main {Image : Type} (imread : String → Option Image)
    (cvtAndThreshold : Image → Image) (ocr : Image → Except PyError String)
    (known : String → Bool) (image_path : String) : List String :=
  match preprocess_image imread cvtAndThreshold image_path with
  | Except.error e => ["에러 발생: " ++ errMessage e]
  | Except.ok processed_image =>
    match extract_text_from_image ocr processed_image with
    | Except.error e => ["에러 발생: " ++ errMessage e]
    | Except.ok text =>
      ["----- 추출된 텍스트 -----", text]
      ++ reportLines (validate_text known text)

/-! ## Helper lemmas

The four checks produce messages with pairwise distinct fixed prefixes, so
counting one kind of message in the aggregated `errors` list sees only the
check that produces it. -/

lemma spellMsg_take2 (ms : List String) : (spellMsg ms).data.take 2 = ['오', '타'] := by
  unfold spellMsg
  rw [String.data_append]
  rfl

lemma punctMsg_take2 (s : String) : (punctMsg s).data.take 2 = ['문', '장'] := by
  unfold punctMsg
  rw [String.data_append, String.data_append]
  rfl

lemma ne_of_take2 {a b : String} (h : a.data.take 2 ≠ b.data.take 2) : a ≠ b :=
  fun e => h (e ▸ rfl)

lemma spellMsg_ne_lineMsg (ms : List String) : spellMsg ms ≠ lineMsg :=
  ne_of_take2 (by rw [spellMsg_take2]; decide)

lemma spellMsg_ne_wsMsg (ms : List String) : spellMsg ms ≠ wsMsg :=
  ne_of_take2 (by rw [spellMsg_take2]; decide)

lemma punctMsg_ne_lineMsg (s : String) : punctMsg s ≠ lineMsg :=
  ne_of_take2 (by rw [punctMsg_take2]; decide)

lemma punctMsg_ne_wsMsg (s : String) : punctMsg s ≠ wsMsg :=
  ne_of_take2 (by rw [punctMsg_take2]; decide)

lemma lineMsg_not_mem_punctErrors (sents : List (List Char)) :
    lineMsg ∉ punctErrors sents := by
  intro h
  unfold punctErrors at h
  rcases List.mem_map.1 h with ⟨s, _, hs⟩
  exact punctMsg_ne_lineMsg (String.mk s) hs

lemma wsMsg_not_mem_punctErrors (sents : List (List Char)) :
    wsMsg ∉ punctErrors sents := by
  intro h
  unfold punctErrors at h
  rcases List.mem_map.1 h with ⟨s, _, hs⟩
  exact punctMsg_ne_wsMsg (String.mk s) hs

/-- The line-count message occurs in `errors` exactly when the line-count
check fires, and then exactly once. -/
lemma count_errorsOf_lineMsg (known : String → Bool) (text : String) :
    (errorsOf known text).count lineMsg =
      if nonBlankLineCount text < 3 then 1 else 0 := by
  have hp : (punctErrors (sentencesOf text)).count lineMsg = 0 :=
    List.count_eq_zero.2 (lineMsg_not_mem_punctErrors _)
  have hs : lineMsg ≠ spellMsg (misspelledOf known text) :=
    (spellMsg_ne_lineMsg _).symm
  unfold errorsOf
  by_cases hc : nonBlankLineCount text < 3 <;>
    by_cases hm : (misspelledOf known text).isEmpty <;>
      by_cases hw : hasDoubleSpace text.data <;>
        simp [hc, hm, hw, hp, hs, List.count_append, List.count_cons,
          (by decide : lineMsg ≠ wsMsg)]

/-- The whitespace message occurs in `errors` exactly when the whitespace
check fires, and then exactly once. -/
lemma count_errorsOf_wsMsg (known : String → Bool) (text : String) :
    (errorsOf known text).count wsMsg =
      if hasDoubleSpace text.data then 1 else 0 := by
  have hp : (punctErrors (sentencesOf text)).count wsMsg = 0 :=
    List.count_eq_zero.2 (wsMsg_not_mem_punctErrors _)
  have hs : wsMsg ≠ spellMsg (misspelledOf known text) :=
    (spellMsg_ne_wsMsg _).symm
  unfold errorsOf
  by_cases hc : nonBlankLineCount text < 3 <;>
    by_cases hm : (misspelledOf known text).isEmpty <;>
      by_cases hw : hasDoubleSpace text.data <;>
        simp [hc, hm, hw, hp, hs, List.count_append, List.count_cons,
          (by decide : wsMsg ≠ lineMsg)]

/-- `hasDoubleSpace` holds exactly when the text contains two consecutive
space characters, i.e. a run of two or more spaces. -/
lemma hasDoubleSpace_iff : ∀ l : List Char,
    hasDoubleSpace l = true ↔ [' ', ' '] <:+: l
  | [] => by simp [hasDoubleSpace]
  | [c] => by
    simp only [hasDoubleSpace, Bool.false_eq_true, false_iff]
    intro h
    have h2 := h.length_le
    simp at h2
  | c1 :: c2 :: cs => by
    rw [hasDoubleSpace, List.infix_cons_iff, List.cons_prefix_cons,
      List.cons_prefix_cons, ← hasDoubleSpace_iff (c2 :: cs)]
    simp only [Bool.or_eq_true, Bool.and_eq_true, decide_eq_true_eq,
      List.nil_prefix, and_true]
    constructor
    · rintro (⟨ha, hb⟩ | h)
      · exact Or.inl ⟨ha.symm, hb.symm⟩
      · exact Or.inr h
    · rintro (⟨ha, hb⟩ | h)
      · exact Or.inl ⟨ha.symm, hb.symm⟩
      · exact Or.inr h

/-- If the aggregated `errors` list is empty, each of the four checks
passed. -/
lemma errorsOf_eq_nil (known : String → Bool) (text : String)
    (h : errorsOf known text = []) :
    misspelledOf known text = [] ∧ 3 ≤ nonBlankLineCount text ∧
    hasDoubleSpace text.data = false ∧
    punctErrors (sentencesOf text) = [] := by
  unfold errorsOf at h
  rw [List.append_eq_nil, List.append_eq_nil, List.append_eq_nil] at h
  obtain ⟨⟨⟨h1, h2⟩, h3⟩, h4⟩ := h
  refine ⟨?_, ?_, ?_, h3⟩
  · by_cases hm : (misspelledOf known text).isEmpty
    · exact List.isEmpty_iff.1 hm
    · simp [hm] at h1
  · by_cases hc : nonBlankLineCount text < 3
    · simp [hc] at h2
    · omega
  · by_cases hw : hasDoubleSpace text.data
    · simp [hw] at h4
    · simpa using hw

/-- If no punctuation error was produced, every segment before the last
ends with a period. -/
lemma endsWithDot_of_punctErrors_nil {sents : List (List Char)}
    (h : punctErrors sents = []) {s : List Char} (hs : s ∈ sents.dropLast) :
    endsWithDot s = true := by
  unfold punctErrors at h
  rw [List.map_eq_nil_iff, List.filter_eq_nil_iff] at h
  simpa using h s hs

/-! ## Claim theorems -/

/-- C1: for every dictionary and every input string, the report returned by
`validate_text` has `is_valid = true` if and only if its `errors` list is
empty. -/
theorem C1_isValid_iff_errors_empty (known : String → Bool) (text : String) :
    (validate_text known text).is_valid = true ↔
      (validate_text known text).errors = [] := by
  show ((errorsOf known text).length == 0) = true ↔ errorsOf known text = []
  simp [List.length_eq_zero]

/-- C2 (counterexample): the claim that `errors` always has at most four
entries is false: on the input `"a! b! c! d! e! f"` with a dictionary that
knows no word, the punctuation check alone appends five messages (one per
offending non-last segment) and `errors` has seven entries. -/
theorem C2_counterexample :
    ¬ ((validate_text (fun _ => false) "a! b! c! d! e! f").errors.length ≤ 4) := by
  decide

/-- C2 (amended): the spelling, line-count and whitespace checks each append
at most one message, while the punctuation check appends one message per
offending segment before the last, so `errors` has at most
`3 + (number of sentence segments - 1)` entries. -/
theorem C2_amended_error_bound (known : String → Bool) (text : String) :
    (validate_text known text).errors.length ≤
      3 + (sentencesOf text).dropLast.length := by
  show (errorsOf known text).length ≤ _
  have h3 : (punctErrors (sentencesOf text)).length ≤
      (sentencesOf text).dropLast.length := by
    unfold punctErrors
    rw [List.length_map]
    exact List.length_filter_le _ _
  unfold errorsOf
  rw [List.length_append, List.length_append, List.length_append]
  have e1 : (if (misspelledOf known text).isEmpty then ([] : List String)
      else [spellMsg (misspelledOf known text)]).length ≤ 1 := by
    split <;> simp
  have e2 : (if nonBlankLineCount text < 3 then [lineMsg]
      else ([] : List String)).length ≤ 1 := by
    split <;> simp
  have e4 : (if hasDoubleSpace text.data then [wsMsg]
      else ([] : List String)).length ≤ 1 := by
    split <;> simp
  omega

/-- C3: the terminal-punctuation check splits `"A. B. C"` into the segments
`["A.", "B.", "C"]`, checks only the segments before the last (`"A."` and
`"B."`, both of which end with a period), exempts the last segment `"C"`
even though it lacks terminal punctuation, and produces no punctuation
error. -/
theorem C3_terminal_punctuation_example :
    (sentencesOf "A. B. C").map String.mk = ["A.", "B.", "C"] ∧
    ((sentencesOf "A. B. C").dropLast).map String.mk = ["A.", "B."] ∧
    (∀ s ∈ (sentencesOf "A. B. C").dropLast, endsWithDot s = true) ∧
    endsWithDot "C".data = false ∧
    punctErrors (sentencesOf "A. B. C") = [] := by
  exact ⟨by decide, by decide, by decide, by decide, by decide⟩

/-- C4: the report's `lines_count` equals the number of lines that are
non-empty after discarding blank and whitespace-only lines, and the
line-count error appears in `errors` exactly once when that count is below
three and not at all otherwise. -/
theorem C4_line_count (known : String → Bool) (text : String) :
    (validate_text known text).lines_count = nonBlankLineCount text ∧
    (validate_text known text).errors.count lineMsg =
      if nonBlankLineCount text < 3 then 1 else 0 :=
  ⟨rfl, count_errorsOf_lineMsg known text⟩

/-- C5: the extraneous-whitespace error appears in `errors` exactly once
when the input contains two consecutive space characters (a run of two or
more spaces), regardless of how many such runs occur, and not at all
otherwise. -/
theorem C5_whitespace (known : String → Bool) (text : String) :
    (validate_text known text).errors.count wsMsg =
      if [' ', ' '] <:+: text.data then 1 else 0 := by
  show (errorsOf known text).count wsMsg = _
  rw [count_errorsOf_wsMsg known text]
  by_cases hb : hasDoubleSpace text.data = true
  · rw [if_pos hb, if_pos ((hasDoubleSpace_iff _).1 hb)]
  · rw [if_neg hb, if_neg (fun hi => hb ((hasDoubleSpace_iff _).2 hi))]

/-- C6: on the empty input, `validate_text` reports `lines_count = 0` and
therefore exactly the line-count error, extracts no tokens so
`misspelled_words` is empty, and the sentence split yields a single empty
segment which, being the last and only one, is exempt, so no punctuation
error is produced. -/
theorem C6_empty_input (known : String → Bool) :
    (validate_text known "").lines_count = 0 ∧
    (validate_text known "").misspelled_words = [] ∧
    (validate_text known "").errors = [lineMsg] ∧
    sentencesOf "" = [[]] ∧
    punctErrors (sentencesOf "") = [] :=
  ⟨rfl, rfl, rfl, rfl, rfl⟩

/-- C7: `validate_text` is deterministic and stateless: two invocations on
the same string yield identical reports (all four fields, including the
order of `errors`). -/
theorem C7_deterministic (known : String → Bool) (t1 t2 : String)
    (h : t1 = t2) :
    validate_text known t1 = validate_text known t2 := by
  rw [h]

/-- Witness for C7 at a concrete input. -/
theorem C7_deterministic_witness :
    ("sample text" : String) = "sample text" ∧
    validate_text (fun _ => true) "sample text" =
      validate_text (fun _ => true) "sample text" :=
  ⟨rfl, C7_deterministic (fun _ => true) "sample text" "sample text" rfl⟩

/-- C8: when the decoder yields no image data for the path,
`preprocess_image` fails with the `FileNotFoundError` carrying the path, and
`main` catches any error raised by the preprocessing or extraction stages at
its single boundary, emits exactly one diagnostic line, and returns normally
(it is a total function into the printed lines, so the raw exception never
propagates). -/
theorem C8_error_boundary {Image : Type} (imread : String → Option Image)
    (cvtAndThreshold : Image → Image) (ocr : Image → Except PyError String)
    (known : String → Bool) (image_path : String)
    (h : imread image_path = none) :
    preprocess_image imread cvtAndThreshold image_path =
      Except.error
        (PyError.fileNotFound ("이미지를 찾을 수 없습니다: " ++ image_path)) ∧
    main imread cvtAndThreshold ocr known image_path =
      ["에러 발생: " ++ ("이미지를 찾을 수 없습니다: " ++ image_path)] ∧
    ∀ (imread2 : String → Option Image) (img : Image) (e : PyError),
      imread2 image_path = some img →
      ocr (cvtAndThreshold img) = Except.error e →
      main imread2 cvtAndThreshold ocr known image_path =
        ["에러 발생: " ++ errMessage e] := by
  refine ⟨?_, ?_, ?_⟩
  · simp [preprocess_image, h]
  · simp [main, preprocess_image, h, errMessage]
  · intro imread2 img e h2 he
    simp [main, preprocess_image, extract_text_from_image, h2, he]

/-- Witness for C8 at a concrete missing path and a concrete decoder. -/
theorem C8_error_boundary_witness :
    ((fun _ : String => (none : Option Unit)) "does_not_exist.png" = none) ∧
    preprocess_image (fun _ : String => (none : Option Unit)) id
        "does_not_exist.png" =
      Except.error
        (PyError.fileNotFound
          ("이미지를 찾을 수 없습니다: " ++ "does_not_exist.png")) ∧
    main (fun _ : String => (none : Option Unit)) id
        (fun _ => Except.ok "") (fun _ => true) "does_not_exist.png" =
      ["에러 발생: " ++ ("이미지를 찾을 수 없습니다: " ++ "does_not_exist.png")] :=
  ⟨rfl,
   (C8_error_boundary (fun _ => none) id (fun _ => Except.ok "")
     (fun _ => true) "does_not_exist.png" rfl).1,
   (C8_error_boundary (fun _ => none) id (fun _ => Except.ok "")
     (fun _ => true) "does_not_exist.png" rfl).2.1⟩

/-- C9: `validate_text` is total at the public interface: for every
dictionary and every input string it returns a `ValidationReport` carrying
all four fields. (In this embedding every operation `validate_text` uses is
a total function, so no input can raise.) -/
theorem C9_total (known : String → Bool) (text : String) :
    ∃ (ms : List String) (lc : Nat) (errs : List String) (v : Bool),
      validate_text known text =
        { misspelled_words := ms, lines_count := lc,
          errors := errs, is_valid := v } :=
  ⟨misspelledOf known text, nonBlankLineCount text, errorsOf known text,
    (errorsOf known text).length == 0, rfl⟩

/-- C10: whenever a report produced by `validate_text` has
`is_valid = true`, its `misspelled_words` is empty, its `lines_count` is at
least three, the input contained no run of two or more consecutive spaces,
and every sentence segment before the last ends with a period. -/
theorem C10_valid_report_invariant (known : String → Bool) (text : String)
    (h : (validate_text known text).is_valid = true) :
    (validate_text known text).misspelled_words = [] ∧
    3 ≤ (validate_text known text).lines_count ∧
    ¬ ([' ', ' '] <:+: text.data) ∧
    ∀ s ∈ (sentencesOf text).dropLast, endsWithDot s = true := by
  have hnil : errorsOf known text = [] := by
    have h0 : ((errorsOf known text).length == 0) = true := h
    simpa [List.length_eq_zero] using h0
  obtain ⟨h1, h2, h3, h4⟩ := errorsOf_eq_nil known text hnil
  refine ⟨h1, h2, ?_, fun s hs => endsWithDot_of_punctErrors_nil h4 hs⟩
  intro hi
  rw [(hasDoubleSpace_iff _).2 hi] at h3
  exact absurd h3 (by decide)

/-- Witness for C10 at a concrete valid input. -/
theorem C10_valid_report_invariant_witness :
    (validate_text (fun _ => true) "Aa.\nBb.\nCc.").is_valid = true ∧
    (validate_text (fun _ => true) "Aa.\nBb.\nCc.").misspelled_words = [] ∧
    3 ≤ (validate_text (fun _ => true) "Aa.\nBb.\nCc.").lines_count :=
  ⟨by decide,
   (C10_valid_report_invariant (fun _ => true) "Aa.\nBb.\nCc." (by decide)).1,
   (C10_valid_report_invariant (fun _ => true) "Aa.\nBb.\nCc." (by decide)).2.1⟩

end ImageVerification
